import Mathlib

/-!
# Verification of the `useful_cli` utilities

A shallow embedding, in Lean 4, of the pure computational core of the
`useful_cli` repository, together with theorems settling the specified
properties of that core.

Embedded components:

* `src/useful_cli/utils.py` — the unit-conversion registry
  (`get_conversions`, `apply_conversion`) and the subplot-layout
  heuristic (`get_subplot_layout`).  Note that `utils.py` imports only
  `matplotlib.pyplot as plt` and `rc`; the name `np` used by
  `get_subplot_layout` (and by the degree/radian conversion lambdas) is
  undefined in the module, so evaluating those raises `NameError` at
  run time.  The embedding models this name-resolution failure
  explicitly.

* `src/useful_cli/cli/plot_2d.py` — the XVG data-file parser inside
  `main` (metadata counting, per-line tokenisation, and the
  restart/extension splice on mid-data `#` marker lines), and the
  temperature defaulting at lines 228-229.

* `src/useful_cli/cli/visualize_pdb.py` and
  `src/useful_cli/cli/visualize_and_align.py` — the argument-validation
  and output-path-resolution logic of `main` (section "1. Check input
  arguments"), which runs before any PyMOL engine call.

Numeric values are modelled as exact rationals (`ℚ`): every numeric
literal appearing in the source is a finite decimal, hence an exact
rational, and the properties at stake concern the written factors and
exact algebraic relations between them.  Python run-time failures
(`NameError`, `TypeError`, `KeyError`, `ValueError`, `IndexError`,
`AttributeError`) are modelled with `Except`/`Option` results.
-/

set_option autoImplicit false

namespace UsefulCli

/-- Python run-time errors that the embedded code can raise. -/
inductive PyError where
  | nameError (name : String)
  | typeError
  | keyError (key : String)
  deriving Repr, DecidableEq

/-! ## utils.py : the unit-conversion registry -/

/-- The names bound at module level of `src/useful_cli/utils.py` by
its two imports (`import matplotlib.pyplot as plt`,
`from matplotlib import rc`).  The module never imports numpy, so the
name `np` is absent. -/
def utils_imports : List String := ["plt", "rc"]

/-- A conversion function of the registry: from data value and optional
temperature to a result (or a Python error).  The Python counterparts
are the lambdas stored in the dictionary of `get_conversions`. -/
abbrev ConvFun := ℚ → Option ℚ → Except PyError ℚ

/-- Embeds `utils.get_conversions` (utils.py lines 17-34) as an
association list from conversion name to `(function, unit label)`.

Faithfulness notes:
* The two-parameter lambdas (`kT to kJ/mol`, `kJ/mol to kT`,
  `kT to kcal/mol`, `kcal/mol to kT`) evaluate
  `1.38064852 * 6.02 * temp / 1000`; when `temp` is `None`, the Python
  multiplication `float * None` raises `TypeError`.
* The `degree to radian` / `radian to degree` lambdas evaluate `np.pi`
  first; `np` is not defined in utils.py (see `utils_imports`), so any
  application raises `NameError` before touching `x`.
* The remaining lambdas declare `temp=None` as a defaulted parameter
  and ignore it. -/
def get_conversions : List (String × (ConvFun × String)) :=
  [ ("ps to ns", (fun x _ => .ok (x / 1000), "ns")),
    ("ns to ps", (fun x _ => .ok (x * 1000), "ps")),
    ("kT to kJ/mol",
      (fun x t => match t with
        | some temp => .ok (x * (1.38064852 * 6.02 * temp / 1000))
        | none => .error .typeError, "kJ/mol")),
    ("kJ/mol to kT",
      (fun x t => match t with
        | some temp => .ok (x / (1.38064852 * 6.02 * temp / 1000))
        | none => .error .typeError, "kT")),
    ("kT to kcal/mol",
      (fun x t => match t with
        | some temp => .ok (x * (1.38064852 * 6.02 * temp / 1000) * 0.239005736)
        | none => .error .typeError, "kcal/mol")),
    ("kcal/mol to kT",
      (fun x t => match t with
        | some temp => .ok (x / ((1.38064852 * 6.02 * temp / 1000) * 0.239005736))
        | none => .error .typeError, "kT")),
    ("kJ/mol to kcal/mol", (fun x _ => .ok (x * 0.239005736), "kcal/mol")),
    ("kcal/mol to kJ/mol", (fun x _ => .ok (x / 0.239005736), "kJ/mol")),
    ("degree to radian", (fun _ _ => .error (.nameError "np"), "radian")),
    ("radian to degree", (fun _ _ => .error (.nameError "np"), "degree")) ]

/-- Embeds `utils.apply_conversion` (utils.py lines 37-51).

* `conversion is None` → return `(data, None)` unchanged.
* Unknown name → the dictionary subscript `conversions[conversion]`
  raises `KeyError` (the failure the specification's error taxonomy
  calls `UnknownConversionError`).
* Otherwise the function is applied as `func(data, temp)`.  The
  `try/except TypeError` retry calls `func(data)`: for the lambdas with
  a defaulted `temp` the first call never raises `TypeError`, and for
  the two-required-parameter lambdas `func(data)` is itself a
  `TypeError` (missing positional argument), so the net effect of the
  `except` branch is to re-raise `TypeError`; any other error
  propagates unchanged. -/
def apply_conversion (data : ℚ) (conversion : Option String := none)
    (temp : Option ℚ := none) : Except PyError (ℚ × Option String) :=
  match conversion with
  | none => .ok (data, none)
  | some name =>
    match get_conversions.lookup name with
    | none => .error (.keyError name)
    | some (func, unit_label) =>
      match func data temp with
      | .ok new_data => .ok (new_data, some unit_label)
      | .error e => .error e

/-! ## utils.py : the subplot-layout heuristic -/

/-- The arithmetic body of `utils.get_subplot_layout` (utils.py lines
71-82), i.e. the computation the code performs once the name `np`
resolves (the code with the missing `import numpy as np` restored).
`np.sqrt` on a nonnegative integer is modelled exactly:
`int(np.sqrt n + 0.5)` is the integer nearest to `√n`, and
`int(np.floor(np.sqrt n))` is `Nat.sqrt n`; `int(n / c)` (true division
then truncation toward zero) is `n / c` on `ℕ`. -/
def get_subplot_layout_alg (n_subplots : ℕ) : ℕ × ℕ :=
  let s := Nat.sqrt n_subplots
  -- int(np.sqrt(n_subplots) + 0.5): round √n to the nearest integer
  let rounded := if s * s + s + 1 ≤ n_subplots then s + 1 else s
  let n_cols := if rounded * rounded = n_subplots then s else s + 1
  let n_rows :=
    if n_subplots % n_cols = 0 then n_subplots / n_cols
    else n_subplots / n_cols + 1
  (n_cols, n_rows)

/-- Embeds `utils.get_subplot_layout` (utils.py lines 54-82) as it
actually executes: the first statement evaluates `np.sqrt`, and since
`utils.py` binds no name `np` (see `utils_imports`), the call raises
`NameError: name 'np' is not defined` for every input. -/
def get_subplot_layout (n_subplots : ℕ) : Except PyError (ℕ × ℕ) :=
  if utils_imports.contains "np" then .ok (get_subplot_layout_alg n_subplots)
  else .error (.nameError "np")

/-! ## plot_2d.py : the XVG parser inside `main`

`main` (plot_2d.py lines 159-192) reads all lines of the file
(`readlines`, so every line is a nonempty string, normally ending in a
newline), counts the metadata lines, and then scans `lines[m:-1]`
accumulating the `x` and `y` lists. -/

/-- `line[0]` in Python: the first character, or an `IndexError`
(modelled as `none`) on an empty string. -/
def firstChar? (line : String) : Option Char := line.data.head?

/-- Helper for `pyTokens`: scan the characters with the current
(reversed) token as accumulator, emitting a token at each maximal
non-whitespace run. -/
def wsTokensAux : Option (List Char) → List Char → List (List Char)
  | none, [] => []
  | some acc, [] => [acc.reverse]
  | none, c :: cs =>
    if c.isWhitespace then wsTokensAux none cs
    else wsTokensAux (some [c]) cs
  | some acc, c :: cs =>
    if c.isWhitespace then acc.reverse :: wsTokensAux none cs
    else wsTokensAux (some (c :: acc)) cs

/-- `line.split()` in Python: tokenise on runs of whitespace,
discarding empty tokens. -/
def pyTokens (line : String) : List String :=
  (wsTokensAux none line.data).map fun cs => String.mk cs

/-- Helper for `pyFloatChars?`: split a character list at each
occurrence of `sep` (the pieces may be empty). -/
def splitOnCharAux (sep : Char) : List Char → List Char → List (List Char)
  | acc, [] => [acc.reverse]
  | acc, c :: cs =>
    if c = sep then acc.reverse :: splitOnCharAux sep [] cs
    else splitOnCharAux sep (c :: acc) cs

/-- The value of an all-digit character list, read in base 10; `none`
if any character is not a digit.  An empty list yields `some 0` (used
for the digit groups around a decimal point, where Python's `float`
accepts `"1."` and `".5"`). -/
def digitGroupVal? (cs : List Char) : Option ℕ :=
  if cs.all Char.isDigit then
    some (cs.foldl (fun a c => 10 * a + (c.toNat - 48)) 0)
  else none

/-- Python's `float(token)` on the finite-decimal literals occurring in
XVG data files: an optional sign, then digits with an optional decimal
point (at least one digit overall).  Exponent, infinity and NaN forms
are not modelled; they are not exercised by any property below.
Returns `none` when the token is not such a literal (Python raises
`ValueError`). -/
def pyFloatChars? (s : List Char) : Option ℚ :=
  let (sgn, body) : ℤ × List Char :=
    match s with
    | '-' :: rest => (-1, rest)
    | '+' :: rest => (1, rest)
    | _ => (1, s)
  match splitOnCharAux '.' [] body with
  | [i] =>
    if i = [] then none
    else (digitGroupVal? i).map (fun iv => Rat.divInt (sgn * iv) 1)
  | [i, f] =>
    if i = [] ∧ f = [] then none
    else
      (digitGroupVal? i).bind fun iv =>
        (digitGroupVal? f).map fun fv =>
          Rat.divInt (sgn * ((iv * 10 ^ f.length + fv : ℕ) : ℤ)) ((10 ^ f.length : ℕ) : ℤ)
  | _ => none

/-- Python's `float` applied to a token string. -/
def pyFloat? (s : String) : Option ℚ := pyFloatChars? s.data

/-- The first loop of `main` (plot_2d.py lines 164-169): the count `m`
of lines whose first character is `#` or `@`, over the whole file (not
just a leading block).  `line[0]` on an empty line would raise
`IndexError` (`none`); `readlines` never produces empty lines. -/
def count_meta : List String → Option ℕ
  | [] => some 0
  | line :: rest =>
    match firstChar? line with
    | none => none
    | some c =>
      (count_meta rest).map fun m =>
        (if c = '#' ∨ c = '@' then 1 else 0) + m

/-- One data line (plot_2d.py lines 183-185): `tokens = line.split()`,
`x.append(float(tokens[0]))`, `y.append(float(tokens[column]))`.
`none` models `IndexError` (missing token) or `ValueError` (not a
float). -/
def parse_line_xy (column : ℕ) (line : String) : Option (ℚ × ℚ) :=
  let tokens := pyTokens line
  match tokens.head? with
  | none => none
  | some t0 =>
    match pyFloat? t0 with
    | none => none
    | some xv =>
      match tokens.get? column with
      | none => none
      | some tc => (pyFloat? tc).map fun yv => (xv, yv)

/-- The second loop of `main` (plot_2d.py lines 172-191), scanning
`lines[m:-1]` with accumulators `x`, `y`.  The list argument is the
suffix `lines[m:]`; the loop body never runs on the final element
(mirroring the `-1` bound of the slice), but that element remains
visible as `lines[n]`, the line after a marker line.

Branches, in Python's evaluation order:
* `'#' in line` falsifies the first condition by short-circuit and
  satisfies the `elif`, entering the splice branch: the first token of
  the following line is parsed as a float `t`, `x` is filtered to the
  values `< t`, and `y` is cut to the first `len(x)` elements.
* otherwise `line[0]` is inspected (`IndexError` on an empty line);
  `@`-initial lines are skipped, and any other line is a data line
  appended to both accumulators. -/
def parse_data (column : ℕ) : List ℚ → List ℚ → List String →
    Option (List ℚ × List ℚ)
  | x, y, [] => some (x, y)
  | x, y, [_] => some (x, y)
  | x, y, line :: next :: rest =>
    if line.data.contains '#' then
      match (pyTokens next).head? with
      | none => none
      | some t0 =>
        match pyFloat? t0 with
        | none => none
        | some t =>
          parse_data column (x.filter fun v => decide (v < t))
            (y.take (x.filter fun v => decide (v < t)).length) (next :: rest)
    else
      match firstChar? line with
      | none => none
      | some c =>
        if c = '@' then parse_data column x y (next :: rest)
        else
          match parse_line_xy column line with
          | none => none
          | some (xv, yv) =>
            parse_data column (x ++ [xv]) (y ++ [yv]) (next :: rest)

/-- The whole parsing pass of `main` over one file's lines
(plot_2d.py lines 159-192): count the metadata lines, then scan
`lines[m:-1]` starting from empty accumulators. -/
def parse_xvg (column : ℕ) (lines : List String) :
    Option (List ℚ × List ℚ) :=
  (count_meta lines).bind fun m => parse_data column [] [] (lines.drop m)

/-- Embeds plot_2d.py lines 228-229: `if args.temp is None:
args.temp = 298.15` — the CLI-level temperature default applied by
`main` before it computes the conversion factors. -/
def plot2d_default_temp (temp : Option ℚ) : ℚ :=
  match temp with
  | none => 298.15
  | some t => t

/-! ## visualize_pdb.py / visualize_and_align.py : argument validation

Both `main` functions begin with a "1. Check input arguments" section
(visualize_pdb.py lines 193-213, visualize_and_align.py lines 113-133)
that validates the CLI arguments and resolves the output-path list;
only afterwards does section "2. Load, align and save structures" call
the PyMOL engine.  A validation error therefore aborts the run before
any engine call. -/

/-- Errors raised by the validation sections of the visualization
scripts.  `ValueError` is the failure the specification's taxonomy
calls `InvalidArgumentError`. -/
inductive VizError where
  | fileNotFound (path : String)
  | invalidArgument (msg : String)
  | attributeError (attr : String)
  deriving Repr, DecidableEq

/-- Output-path resolution of `visualize_pdb.main` (lines 199-213):

* `--align_all` without `--ref` → `ValueError`;
* `--align_all` with an explicit output list of length ≠ 1 →
  `ValueError`, otherwise that list; with no output list, the default
  `["aligned_structures.png"]`;
* without `--align_all`, an explicit output list must match the number
  of input files (`ValueError` otherwise); with no output list, the
  defaults `pdb_file.split(".")[0] + ".png"` derived from each input
  file name. -/
def vp_resolve_outputs (pdb_files : List String) (ref : Option String)
    (outputs : Option (List String)) (align_all : Bool) :
    Except VizError (List String) :=
  if align_all then
    match ref with
    | none => .error (.invalidArgument
        "The --align_all flag requires a reference PDB file to be provided with the -r flag.")
    | some _ =>
      match outputs with
      | some outs =>
        if outs.length ≠ 1 then
          .error (.invalidArgument
            "The --align_all flag requires a single output file to be provided.")
        else .ok outs
      | none => .ok ["aligned_structures.png"]
  else
    match outputs with
    | some outs =>
      if outs.length ≠ pdb_files.length then
        .error (.invalidArgument
          "The number of output files must match the number of input PDB files.")
      else .ok outs
    | none => .ok (pdb_files.map fun f => (f.splitOn ".").headD "" ++ ".png")

/-- Section 1 of `visualize_pdb.main` (lines 193-213): existence checks
on the input and reference files (`os.path.exists` is abstracted as the
predicate `fs`), then output resolution.  `main` proceeds to the PyMOL
calls of section 2 only when this returns `ok`. -/
def vp_validate (fs : String → Bool) (pdb_files : List String)
    (ref : Option String) (outputs : Option (List String))
    (align_all : Bool) : Except VizError (List String) :=
  match pdb_files.find? (fun f => ! fs f) with
  | some f => .error (.fileNotFound f)
  | none =>
    match ref with
    | some r =>
      if ! fs r then .error (.fileNotFound r)
      else vp_resolve_outputs pdb_files (some r) outputs align_all
    | none => vp_resolve_outputs pdb_files none outputs align_all

/-- The attribute names the argparse namespace of
`visualize_and_align.initialize` defines (lines 11-66): the output
flag is `-o` (long form `--output`), stored as attribute `output` —
there is no
attribute `outputs`. -/
def va_namespace_attrs : List String :=
  ["pdb_files", "ref", "output", "width", "height", "dpi", "align_all"]

/-- The Python attribute access `args.outputs` performed by
`visualize_and_align.main` (lines 123, 127, 129, 133): the namespace
defines `output`, not `outputs`, so the lookup raises
`AttributeError`.  (Were the attribute defined, its value would be the
`--output` flag value, passed here for faithfulness.) -/
def va_getattr_outputs (output : Option (List String)) :
    Except VizError (Option (List String)) :=
  if va_namespace_attrs.contains "outputs" then .ok output
  else .error (.attributeError "outputs")

/-- Output-path resolution of `visualize_and_align.main` (lines
119-133).  The code is textually the validation of visualize_pdb.py,
but every path other than "align_all without ref" reads
`args.outputs`, which raises `AttributeError` (see
`va_getattr_outputs`). -/
def va_resolve_outputs (pdb_files : List String) (ref : Option String)
    (output : Option (List String)) (align_all : Bool) :
    Except VizError (List String) :=
  if align_all then
    match ref with
    | none => .error (.invalidArgument
        "The --align_all flag requires a reference PDB file to be provided with the -r flag.")
    | some _ =>
      match va_getattr_outputs output with
      | .error e => .error e
      | .ok (some outs) =>
        if outs.length ≠ 1 then
          .error (.invalidArgument
            "The --align_all flag requires a single output file to be provided.")
        else .ok outs
      | .ok none => .ok ["aligned_structures.png"]
  else
    match va_getattr_outputs output with
    | .error e => .error e
    | .ok (some outs) =>
      if outs.length ≠ pdb_files.length then
        .error (.invalidArgument
          "The number of output files must match the number of input PDB files.")
      else .ok outs
    | .ok none => .ok (pdb_files.map fun f => (f.splitOn ".").headD "" ++ ".png")

/-- Section 1 of `visualize_and_align.main` (lines 113-133): existence
checks, then output resolution (which reads the undefined attribute
`args.outputs`). -/
def va_validate (fs : String → Bool) (pdb_files : List String)
    (ref : Option String) (output : Option (List String))
    (align_all : Bool) : Except VizError (List String) :=
  match pdb_files.find? (fun f => ! fs f) with
  | some f => .error (.fileNotFound f)
  | none =>
    match ref with
    | some r =>
      if ! fs r then .error (.fileNotFound r)
      else va_resolve_outputs pdb_files (some r) output align_all
    | none => va_resolve_outputs pdb_files none output align_all

/-! ## Definitions taken from the specification's words

These are spec-side formulas, kept separate from the source embedding
above so the two can be compared. -/

/-- Modelled from the spec: the conversion factor the specification
claims for `kT to kJ/mol`, namely
`1.380649e-23 * 6.02e23 * T / 1000` (i.e. kB·NA·T/1000 with
kB = 1.380649e-23). -/
def spec_kT_to_kJ_factor (T : ℚ) : ℚ := 1.380649e-23 * 6.02e23 * T / 1000

/-! ## Theorems -/

/-- C6: `apply_conversion` with no conversion name returns the data
unchanged with no unit label, for every data value and every
temperature: `apply_conversion(x, None, T) == (x, None)`. -/
theorem apply_conversion_none_is_identity (x : ℚ) (t : Option ℚ) :
    apply_conversion x none t = .ok (x, none) := rfl

/-- Helper: a `List.lookup` misses every key absent from the key
list. -/
theorem lookup_eq_none_of_key_not_mem {β : Type} (l : List (String × β))
    (a : String) (h : a ∉ l.map Prod.fst) : l.lookup a = none := by
  induction l with
  | nil => rfl
  | cons p rest ih =>
    simp only [List.map_cons, List.mem_cons, not_or] at h
    rw [List.lookup_cons]
    rw [beq_eq_false_iff_ne.mpr h.1]
    exact ih h.2

/-- C7: for every conversion name outside the registry (the keys of
`get_conversions`), `apply_conversion` fails — the dictionary lookup
raises `KeyError` (the failure the specification calls
`UnknownConversionError`) — for any data and any temperature. -/
theorem apply_conversion_unknown_name_fails (name : String)
    (h : name ∉ get_conversions.map Prod.fst) (x : ℚ) (t : Option ℚ) :
    apply_conversion x (some name) t = .error (.keyError name) := by
  simp only [apply_conversion]
  rw [lookup_eq_none_of_key_not_mem _ _ h]

/-- Witness for C7: the name `"foo to bar"` is not registered, and the
conversion fails with the lookup error. -/
theorem apply_conversion_unknown_name_fails_witness :
    "foo to bar" ∉ get_conversions.map Prod.fst ∧
    apply_conversion 1 (some "foo to bar") (some 298.15) =
      .error (.keyError "foo to bar") := by
  have h : "foo to bar" ∉ get_conversions.map Prod.fst := by decide
  exact ⟨h, apply_conversion_unknown_name_fails "foo to bar" h 1 (some 298.15)⟩

/-- C4 counterexample: the registered `kT to kJ/mol` conversion does
not multiply by the factor the specification states.  At data `1` and
temperature `1000` the code produces `1.38064852 * 6.02` (its factor
is `1.38064852 * 6.02 * T / 1000`), which differs from the
specification's `1.380649e-23 * 6.02e23 * 1000 / 1000`: the code's
Boltzmann mantissa is `1.38064852`, not `1.380649`. -/
theorem kT_to_kJ_factor_differs_from_spec :
    apply_conversion 1 (some "kT to kJ/mol") (some 1000) =
      .ok ((1.38064852 * 6.02 : ℚ), some "kJ/mol") ∧
    (1.38064852 * 6.02 : ℚ) ≠ 1 * spec_kT_to_kJ_factor 1000 := by
  constructor
  · have h : apply_conversion 1 (some "kT to kJ/mol") (some 1000) =
        .ok ((1 * (1.38064852 * 6.02 * 1000 / 1000) : ℚ), some "kJ/mol") := rfl
    rw [h]; norm_num
  · simp only [spec_kT_to_kJ_factor]; norm_num

/-- C4 as amended: the registered `kT to kJ/mol` conversion multiplies
its input by exactly `1.38064852 * 6.02 * T / 1000` (the code's
literal factors; `1.38064852e-23` is the older CODATA Boltzmann value)
and yields the unit label `kJ/mol`. -/
theorem kT_to_kJ_uses_code_factor (x T : ℚ) :
    apply_conversion x (some "kT to kJ/mol") (some T) =
      .ok (x * (1.38064852 * 6.02 * T / 1000), some "kJ/mol") := rfl

/-- C5: for every data value and every temperature `T > 0`, the
`kT to kJ/mol` conversion followed by the `kJ/mol to kT` conversion at
the same temperature returns the original data exactly (the two
transforms are inverse rational maps). -/
theorem kT_kJ_roundtrip (x T : ℚ) (h : 0 < T) :
    apply_conversion x (some "kT to kJ/mol") (some T) =
      .ok (x * (1.38064852 * 6.02 * T / 1000), some "kJ/mol") ∧
    apply_conversion (x * (1.38064852 * 6.02 * T / 1000))
        (some "kJ/mol to kT") (some T) = .ok (x, some "kT") := by
  have hc : (1.38064852 * 6.02 * T / 1000 : ℚ) ≠ 0 := by positivity
  refine ⟨rfl, ?_⟩
  have h2 : apply_conversion (x * (1.38064852 * 6.02 * T / 1000))
      (some "kJ/mol to kT") (some T) =
      .ok (x * (1.38064852 * 6.02 * T / 1000) / (1.38064852 * 6.02 * T / 1000),
        some "kT") := rfl
  rw [h2, mul_div_cancel_right₀ x hc]

/-- Witness for C5: the round trip at data `2` and temperature `300`. -/
theorem kT_kJ_roundtrip_witness :
    (0 : ℚ) < 300 ∧
    apply_conversion (2 * (1.38064852 * 6.02 * 300 / 1000))
        (some "kJ/mol to kT") (some 300) = .ok (2, some "kT") :=
  ⟨by norm_num, (kT_kJ_roundtrip 2 300 (by norm_num)).2⟩

/-- C8 counterexample: `apply_conversion` itself applies no default
temperature.  Its `temp` parameter defaults to `None`, and a
kT-involving conversion evaluated at `temp=None` raises `TypeError`
(`float * None`, re-raised by the `except`-branch retry `func(data)`),
which differs from the result at temperature 298.15. -/
theorem apply_conversion_has_no_default_temp :
    apply_conversion 1 (some "kT to kJ/mol") none = .error .typeError ∧
    apply_conversion 1 (some "kT to kJ/mol") (some 298.15) ≠
      .error .typeError := by
  refine ⟨rfl, ?_⟩
  have h : apply_conversion 1 (some "kT to kJ/mol") (some 298.15) =
      .ok ((1 * (1.38064852 * 6.02 * 298.15 / 1000) : ℚ), some "kJ/mol") := rfl
  rw [h]
  exact fun hh => Except.noConfusion hh

/-- C8 as amended: the 298.15 K default is applied by the plot_2d CLI
(`main` replaces an unspecified `args.temp` by 298.15 before computing
conversion factors), not by `apply_conversion`; `apply_conversion`
with the temperature left unspecified fails with `TypeError` on a
kT-involving conversion, while at the CLI default 298.15 it applies
the factor `1.38064852 * 6.02 * 298.15 / 1000`. -/
theorem plot2d_defaults_temp_not_apply_conversion (x : ℚ) :
    plot2d_default_temp none = 298.15 ∧
    apply_conversion x (some "kT to kJ/mol") none = .error .typeError ∧
    apply_conversion x (some "kT to kJ/mol") (some (plot2d_default_temp none)) =
      .ok (x * (1.38064852 * 6.02 * 298.15 / 1000), some "kJ/mol") :=
  ⟨rfl, rfl, rfl⟩

/-- C1: at the 3-line file `"@ header\n1.0 2.0\n2.0 4.0\n"` with
column 1 the parser yields `x=[1.0]`, `y=[2.0]`, not the specified
`x=[1.0, 2.0]`, `y=[2.0, 4.0]`: the data loop iterates over
`lines[m:-1]`, so the final line of the file never contributes a pair
(contradicting the loop's own comment "read in data starting from
(m+1)-th line to the end"). -/
theorem xvg_parse_drops_final_line :
    parse_xvg 1 ["@ header\n", "1.0 2.0\n", "2.0 4.0\n"] = some ([1], [2]) ∧
    parse_xvg 1 ["@ header\n", "1.0 2.0\n", "2.0 4.0\n"] ≠
      some ([1, 2], [2, 4]) := by
  constructor
  · decide
  · decide

/-- C3: on a mid-data line containing `#`, the parser reads the first
token of the immediately following line as a float `t`, replaces the
accumulated `x` by its values strictly less than `t`, and cuts `y` to
the first `len(x)` entries — which is exactly the new length of `x`
whenever the accumulators had equal length. -/
theorem xvg_splice_truncates (column : ℕ) (x y : List ℚ)
    (line next : String) (rest : List String) (t0 : String) (t : ℚ)
    (hmark : line.data.contains '#' = true)
    (hhead : (pyTokens next).head? = some t0)
    (hfloat : pyFloat? t0 = some t) :
    parse_data column x y (line :: next :: rest) =
      parse_data column (x.filter fun v => decide (v < t))
        (y.take (x.filter fun v => decide (v < t)).length) (next :: rest) ∧
    (x.length = y.length →
      (y.take (x.filter fun v => decide (v < t)).length).length =
        (x.filter fun v => decide (v < t)).length) := by
  constructor
  · rw [parse_data, if_pos hmark]
    simp only [hhead, hfloat]
  · intro h
    rw [List.length_take]
    exact min_eq_left (le_trans (List.length_filter_le _ x) h.le)

/-- Witness for C3: a concrete splice step.  The marker line
`"#! FIELDS\n"` is followed by `"2.0 7.0\n"`, so the accumulated
`x=[1,3]`, `y=[5,6]` are truncated to `x=[1]`, `y=[5]` and parsing
continues on the following line, giving `([1, 2], [5, 7])` overall. -/
theorem xvg_splice_truncates_witness :
    parse_data 1 [1, 3] [5, 6] ["#! FIELDS\n", "2.0 7.0\n", "end\n"] =
      parse_data 1 [1] [5] ["2.0 7.0\n", "end\n"] ∧
    ([(5 : ℚ), 6].take 1).length = 1 := by
  have h := xvg_splice_truncates 1 [1, 3] [5, 6] "#! FIELDS\n" "2.0 7.0\n"
    ["end\n"] "2.0" 2 (by decide) (by decide) (by decide)
  refine ⟨?_, ?_⟩
  · have h1 : ([(1 : ℚ), 3].filter fun v => decide (v < 2)) = [1] := by decide
    have h2 := h.1
    rw [h1] at h2
    simpa using h2
  · have h3 := h.2 (by decide)
    have h1 : ([(1 : ℚ), 3].filter fun v => decide (v < 2)) = [1] := by decide
    rw [h1] at h3
    exact h3

/-- Helper for C9: the scanning loop preserves equality of the lengths
of the two accumulators, whatever mix of data lines, skipped metadata
lines and splice markers it meets. -/
theorem parse_data_preserves_length (column : ℕ) :
    ∀ (ls : List String) (x y xs ys : List ℚ), x.length = y.length →
      parse_data column x y ls = some (xs, ys) → xs.length = ys.length := by
  intro ls
  induction ls with
  | nil =>
    intro x y xs ys h hp
    simp only [parse_data, Option.some.injEq, Prod.mk.injEq] at hp
    obtain ⟨rfl, rfl⟩ := hp
    exact h
  | cons line rest ih =>
    intro x y xs ys h hp
    cases rest with
    | nil =>
      simp only [parse_data, Option.some.injEq, Prod.mk.injEq] at hp
      obtain ⟨rfl, rfl⟩ := hp
      exact h
    | cons next rest2 =>
      rw [parse_data] at hp
      by_cases hc : line.data.contains '#'
      · rw [if_pos hc] at hp
        cases h0 : (pyTokens next).head? with
        | none => simp only [h0] at hp; exact Option.noConfusion hp
        | some t0 =>
          simp only [h0] at hp
          cases h1 : pyFloat? t0 with
          | none => simp only [h1] at hp; exact Option.noConfusion hp
          | some t =>
            simp only [h1] at hp
            refine ih _ _ _ _ ?_ hp
            rw [List.length_take]
            exact (min_eq_left (le_trans (List.length_filter_le _ x) h.le)).symm
      · rw [if_neg hc] at hp
        cases h0 : firstChar? line with
        | none => simp only [h0] at hp; exact Option.noConfusion hp
        | some c =>
          simp only [h0] at hp
          by_cases hat : c = '@'
          · rw [if_pos hat] at hp
            exact ih _ _ _ _ h hp
          · rw [if_neg hat] at hp
            cases h1 : parse_line_xy column line with
            | none => simp only [h1] at hp; exact Option.noConfusion hp
            | some xy =>
              obtain ⟨xv, yv⟩ := xy
              simp only [h1] at hp
              refine ih _ _ _ _ ?_ hp
              simp [h]

/-- C9: whenever the parser succeeds on a file (splice markers
included), the resulting `x` and `y` sequences have equal length. -/
theorem xvg_parse_length_invariant (column : ℕ) (lines : List String)
    (xs ys : List ℚ) (h : parse_xvg column lines = some (xs, ys)) :
    xs.length = ys.length := by
  unfold parse_xvg at h
  cases hm : count_meta lines with
  | none => rw [hm] at h; exact absurd h (by simp)
  | some m =>
    rw [hm, Option.some_bind] at h
    exact parse_data_preserves_length column _ [] [] xs ys rfl h

/-- Witness for C9: a file with a metadata line and a splice marker
parses to sequences of equal length 1. -/
theorem xvg_parse_length_invariant_witness :
    parse_xvg 1 ["@ x\n", "0.0 5.0\n", "3.0 6.0\n", "#! FIELDS\n",
        "2.0 7.0\n", "9 9\n"] = some ([2], [7]) ∧
    ([(2 : ℚ)]).length = ([(7 : ℚ)]).length := by
  have h : parse_xvg 1 ["@ x\n", "0.0 5.0\n", "3.0 6.0\n", "#! FIELDS\n",
      "2.0 7.0\n", "9 9\n"] = some ([2], [7]) := by decide
  exact ⟨h, xvg_parse_length_invariant 1 _ [2] [7] h⟩

/-- Helper: Python's ceiling pattern `q if r == 0 else q + 1` equals
`(c*q + r + c - 1) / c` for a division `c*q + r` with remainder
`r < c`. -/
theorem pyCeil_eq_aux (c q r : ℕ) (hc : 0 < c) (hr : r < c) :
    (if r = 0 then q else q + 1) = (c * q + r + c - 1) / c := by
  by_cases h : r = 0
  · subst h
    rw [if_pos rfl]
    have h2 : c * q + 0 + c - 1 = c * q + (c - 1) := by
      generalize c * q = A
      omega
    rw [h2, Nat.mul_add_div hc, Nat.div_eq_of_lt (by omega), Nat.add_zero]
  · rw [if_neg h]
    have hmul : c * (q + 1) = c * q + c := by ring
    have h2 : c * q + r + c - 1 = c * (q + 1) + (r - 1) := by
      rw [hmul]
      generalize c * q = A
      omega
    rw [h2, Nat.mul_add_div hc, Nat.div_eq_of_lt (by omega), Nat.add_zero]

/-- Helper: the rows computation of `get_subplot_layout`
(`int(n/c)` with `+ 1` when `c` does not divide `n`) is the ceiling
`(n + c - 1) / c`; the resulting grid has at least `n` cells and no
more rows than columns whenever `n ≤ c²`. -/
theorem pyCeil_props (n c : ℕ) (hc : 0 < c) (hub : n ≤ c * c) :
    (if n % c = 0 then n / c else n / c + 1) = (n + c - 1) / c ∧
    n ≤ c * (if n % c = 0 then n / c else n / c + 1) ∧
    (if n % c = 0 then n / c else n / c + 1) ≤ c := by
  set q := n / c with hq
  set r := n % c with hr
  have hdm : c * q + r = n := Nat.div_add_mod n c
  have hmlt : r < c := Nat.mod_lt _ hc
  rw [← hdm] at hub ⊢
  refine ⟨pyCeil_eq_aux c q r hc hmlt, ?_, ?_⟩
  · by_cases h : r = 0
    · rw [if_pos h, h, Nat.add_zero]
    · rw [if_neg h, Nat.mul_succ]
      exact Nat.add_le_add_left hmlt.le _
  · by_cases h : r = 0
    · rw [if_pos h]
      rw [h, Nat.add_zero] at hub
      exact Nat.le_of_mul_le_mul_left hub hc
    · rw [if_neg h]
      have hlt : c * q < c * c := by
        calc c * q < c * q + r := by omega
          _ ≤ c * c := hub
      exact Nat.lt_of_mul_lt_mul_left hlt

/-- Helper: the column count of `get_subplot_layout_alg` is
`Nat.sqrt n` when `n` is a perfect square and `Nat.sqrt n + 1`
otherwise (the rounded-square test of the code is equivalent to the
perfect-square test). -/
theorem layout_alg_eq (n c : ℕ)
    (hc : c = if Nat.sqrt n * Nat.sqrt n = n then Nat.sqrt n else Nat.sqrt n + 1) :
    get_subplot_layout_alg n = (c, if n % c = 0 then n / c else n / c + 1) := by
  have hlt' : n < (Nat.sqrt n + 1) * (Nat.sqrt n + 1) := Nat.lt_succ_sqrt n
  simp only [get_subplot_layout_alg]
  by_cases hsq : Nat.sqrt n * Nat.sqrt n = n
  · rw [if_pos hsq] at hc
    have hcond1 : ¬ (Nat.sqrt n * Nat.sqrt n + Nat.sqrt n + 1 ≤ n) := by
      intro hcon
      omega
    rw [if_neg hcond1, if_pos hsq, hc]
  · rw [if_neg hsq] at hc
    by_cases hcond1 : Nat.sqrt n * Nat.sqrt n + Nat.sqrt n + 1 ≤ n
    · rw [if_pos hcond1, if_neg (ne_of_gt hlt'), hc]
    · rw [if_neg hcond1, if_neg hsq, hc]

/-- Helper: for every `n ≥ 1`, `get_subplot_layout_alg` returns
`(c, r)` with `c = ⌈√n⌉` (characterised by `(c-1)² < n ≤ c²`),
`r = ⌈n / c⌉`, at least `n` grid cells, and `r ≤ c`. -/
theorem layout_alg_spec (n : ℕ) (hn : 1 ≤ n) :
    n ≤ (get_subplot_layout_alg n).1 * (get_subplot_layout_alg n).1 ∧
    ((get_subplot_layout_alg n).1 - 1) * ((get_subplot_layout_alg n).1 - 1) < n ∧
    (get_subplot_layout_alg n).2 =
      (n + (get_subplot_layout_alg n).1 - 1) / (get_subplot_layout_alg n).1 ∧
    n ≤ (get_subplot_layout_alg n).1 * (get_subplot_layout_alg n).2 ∧
    (get_subplot_layout_alg n).2 ≤ (get_subplot_layout_alg n).1 := by
  by_cases hsq : Nat.sqrt n * Nat.sqrt n = n
  · have halg := layout_alg_eq n (Nat.sqrt n) (by rw [if_pos hsq])
    rw [halg]
    dsimp only
    have hs1 : 0 < Nat.sqrt n := Nat.sqrt_pos.mpr hn
    obtain ⟨hceq, hble, hbc⟩ := pyCeil_props n (Nat.sqrt n) hs1 hsq.ge
    refine ⟨hsq.ge, ?_, hceq, hble, hbc⟩
    have h1 : Nat.sqrt n - 1 < Nat.sqrt n := by omega
    exact (mul_lt_mul'' h1 h1 (Nat.zero_le _) (Nat.zero_le _)).trans_le hsq.le
  · have halg := layout_alg_eq n (Nat.sqrt n + 1) (by rw [if_neg hsq])
    rw [halg]
    dsimp only
    have hslt : Nat.sqrt n * Nat.sqrt n < n := lt_of_le_of_ne (Nat.sqrt_le n) hsq
    have hlt' : n < (Nat.sqrt n + 1) * (Nat.sqrt n + 1) := Nat.lt_succ_sqrt n
    obtain ⟨hceq, hble, hbc⟩ := pyCeil_props n (Nat.sqrt n + 1) (Nat.succ_pos _) hlt'.le
    refine ⟨hlt'.le, ?_, hceq, hble, hbc⟩
    simpa using hslt

/-- C2: as shipped, `get_subplot_layout` raises
`NameError: name 'np' is not defined` on every call (utils.py never
brings numpy into scope), so `layout(1)` does not return `(1,1)`; its
arithmetic body (the code with the numpy import restored,
`get_subplot_layout_alg`) does satisfy the claimed contract: for every
`n ≥ 1` it returns `(columns, rows)` with `columns = ⌈√n⌉`
(equivalently `(columns-1)² < n ≤ columns²`, so `columns = √n` exactly
on perfect squares), `rows = ⌈n / columns⌉ = (n + columns - 1) / columns`,
`columns * rows ≥ n` and `columns ≥ rows`, and in particular
`layout(1)=(1,1)`, `layout(4)=(2,2)`, `layout(5)=(3,2)`,
`layout(9)=(3,3)`, `layout(10)=(4,3)`. -/
theorem subplot_layout_raises_nameerror_but_alg_meets_contract :
    get_subplot_layout 1 = .error (.nameError "np") ∧
    (∀ n : ℕ, 1 ≤ n →
      n ≤ (get_subplot_layout_alg n).1 * (get_subplot_layout_alg n).1 ∧
      ((get_subplot_layout_alg n).1 - 1) * ((get_subplot_layout_alg n).1 - 1) < n ∧
      (get_subplot_layout_alg n).2 =
        (n + (get_subplot_layout_alg n).1 - 1) / (get_subplot_layout_alg n).1 ∧
      n ≤ (get_subplot_layout_alg n).1 * (get_subplot_layout_alg n).2 ∧
      (get_subplot_layout_alg n).2 ≤ (get_subplot_layout_alg n).1) ∧
    get_subplot_layout_alg 1 = (1, 1) ∧
    get_subplot_layout_alg 4 = (2, 2) ∧
    get_subplot_layout_alg 5 = (3, 2) ∧
    get_subplot_layout_alg 9 = (3, 3) ∧
    get_subplot_layout_alg 10 = (4, 3) := by
  refine ⟨rfl, fun n hn => layout_alg_spec n hn, ?_, ?_, ?_, ?_, ?_⟩
  · have hs : Nat.sqrt 1 = 1 := (Nat.eq_sqrt.mpr (by norm_num)).symm
    rw [layout_alg_eq 1 1 (by rw [hs]; norm_num)]
    norm_num
  · have hs : Nat.sqrt 4 = 2 := (Nat.eq_sqrt.mpr (by norm_num)).symm
    rw [layout_alg_eq 4 2 (by rw [hs]; norm_num)]
    norm_num
  · have hs : Nat.sqrt 5 = 2 := (Nat.eq_sqrt.mpr (by norm_num)).symm
    rw [layout_alg_eq 5 3 (by rw [hs]; norm_num)]
    norm_num
  · have hs : Nat.sqrt 9 = 3 := (Nat.eq_sqrt.mpr (by norm_num)).symm
    rw [layout_alg_eq 9 3 (by rw [hs]; norm_num)]
    norm_num
  · have hs : Nat.sqrt 10 = 3 := (Nat.eq_sqrt.mpr (by norm_num)).symm
    rw [layout_alg_eq 10 4 (by rw [hs]; norm_num)]
    norm_num

/-- Witness for C2: the inner universally quantified part applied at
`n = 10`, discharging its hypothesis `1 ≤ 10`. -/
theorem subplot_layout_contract_witness :
    (1 ≤ 10) ∧
    (10 ≤ (get_subplot_layout_alg 10).1 * (get_subplot_layout_alg 10).1 ∧
      ((get_subplot_layout_alg 10).1 - 1) * ((get_subplot_layout_alg 10).1 - 1) < 10 ∧
      (get_subplot_layout_alg 10).2 =
        (10 + (get_subplot_layout_alg 10).1 - 1) / (get_subplot_layout_alg 10).1 ∧
      10 ≤ (get_subplot_layout_alg 10).1 * (get_subplot_layout_alg 10).2 ∧
      (get_subplot_layout_alg 10).2 ≤ (get_subplot_layout_alg 10).1) :=
  ⟨by decide,
    subplot_layout_raises_nameerror_but_alg_meets_contract.2.1 10 (by decide)⟩

/-- C10: the validation section of the visualization scripts, run
before any PyMOL engine call.  In `visualize_pdb.py` the claim holds in
full: align-all without a reference fails with `ValueError` (the
specification's `InvalidArgumentError`); an explicit output list must
have length 1 in align-all mode and length equal to the input count
otherwise, a mismatch failing validation; an omitted output list is
resolved to defaults derived from the input base names (or the fixed
name `aligned_structures.png` in align-all mode).  In
`visualize_and_align.py`, however, every path that consults the output
list reads the undefined attribute `args.outputs` (argparse stores the
`--output` flag as `args.output`), so it raises `AttributeError`
instead — even for valid configurations — and omitted outputs are
never resolved to defaults there; only the align-all-without-reference
check behaves as claimed in both scripts. -/
theorem viz_output_validation (fs : String → Bool) (pdb_files : List String)
    (r : String) (outs : List String)
    (hp : ∀ f ∈ pdb_files, fs f = true) (hr : fs r = true) :
    (∀ outputs, vp_validate fs pdb_files none outputs true =
      .error (.invalidArgument
        "The --align_all flag requires a reference PDB file to be provided with the -r flag.")) ∧
    (outs.length ≠ 1 → vp_validate fs pdb_files (some r) (some outs) true =
      .error (.invalidArgument
        "The --align_all flag requires a single output file to be provided.")) ∧
    (outs.length = 1 → vp_validate fs pdb_files (some r) (some outs) true = .ok outs) ∧
    (outs.length ≠ pdb_files.length →
      vp_validate fs pdb_files (some r) (some outs) false =
      .error (.invalidArgument
        "The number of output files must match the number of input PDB files.")) ∧
    (outs.length = pdb_files.length →
      vp_validate fs pdb_files (some r) (some outs) false = .ok outs) ∧
    (vp_validate fs pdb_files (some r) none false =
      .ok (pdb_files.map fun f => (f.splitOn ".").headD "" ++ ".png")) ∧
    (vp_validate fs pdb_files (some r) none true = .ok ["aligned_structures.png"]) ∧
    (∀ output align_all, va_validate fs pdb_files (some r) output align_all =
      .error (.attributeError "outputs")) ∧
    (∀ output, va_validate fs pdb_files none output true =
      .error (.invalidArgument
        "The --align_all flag requires a reference PDB file to be provided with the -r flag.")) := by
  have hfind : pdb_files.find? (fun f => ! fs f) = none := by
    rw [List.find?_eq_none]
    intro f hf
    simp [hp f hf]
  have hvp_none : ∀ outputs align_all,
      vp_validate fs pdb_files none outputs align_all =
        vp_resolve_outputs pdb_files none outputs align_all := by
    intro o a
    rw [vp_validate, hfind]
  have hvp_some : ∀ outputs align_all,
      vp_validate fs pdb_files (some r) outputs align_all =
        vp_resolve_outputs pdb_files (some r) outputs align_all := by
    intro o a
    rw [vp_validate, hfind]
    simp [hr]
  have hva_none : ∀ output align_all,
      va_validate fs pdb_files none output align_all =
        va_resolve_outputs pdb_files none output align_all := by
    intro o a
    rw [va_validate, hfind]
  have hva_some : ∀ output align_all,
      va_validate fs pdb_files (some r) output align_all =
        va_resolve_outputs pdb_files (some r) output align_all := by
    intro o a
    rw [va_validate, hfind]
    simp [hr]
  have hga : ∀ o : Option (List String),
      va_getattr_outputs o = .error (.attributeError "outputs") := by
    intro o
    simp only [va_getattr_outputs]
    rw [if_neg (by decide)]
  refine ⟨?_, ?_, ?_, ?_, ?_, ?_, ?_, ?_, ?_⟩
  · intro outputs
    rw [hvp_none]
    simp [vp_resolve_outputs]
  · intro h
    rw [hvp_some]
    simp [vp_resolve_outputs, h]
  · intro h
    rw [hvp_some]
    simp [vp_resolve_outputs, h]
  · intro h
    rw [hvp_some]
    simp [vp_resolve_outputs, h]
  · intro h
    rw [hvp_some]
    simp [vp_resolve_outputs, h]
  · rw [hvp_some]
    simp [vp_resolve_outputs]
  · rw [hvp_some]
    simp [vp_resolve_outputs]
  · intro output align_all
    rw [hva_some]
    cases align_all with
    | true => simp [va_resolve_outputs, hga]
    | false => simp [va_resolve_outputs, hga]
  · intro output
    rw [hva_none]
    simp [va_resolve_outputs]

/-- Witness for C10: with two existing input files, one reference and
one explicit output, visualize_pdb accepts the align-all run and
rejects the non-align-all run (count mismatch), while
visualize_and_align raises `AttributeError` on the same valid
align-all configuration. -/
theorem viz_output_validation_witness :
    vp_validate (fun _ => true) ["a.pdb", "b.pdb"] (some "ref.pdb")
        (some ["out.png"]) true = .ok ["out.png"] ∧
    vp_validate (fun _ => true) ["a.pdb", "b.pdb"] (some "ref.pdb")
        (some ["out.png"]) false =
      .error (.invalidArgument
        "The number of output files must match the number of input PDB files.") ∧
    va_validate (fun _ => true) ["a.pdb", "b.pdb"] (some "ref.pdb")
        (some ["out.png"]) true = .error (.attributeError "outputs") := by
  have h := viz_output_validation (fun _ => true) ["a.pdb", "b.pdb"] "ref.pdb"
    ["out.png"] (by intro f hf; rfl) rfl
  exact ⟨h.2.2.1 rfl, h.2.2.2.1 (by decide),
    h.2.2.2.2.2.2.2.1 (some ["out.png"]) true⟩

end UsefulCli
